import Mathlib

/-!
Shallow embedding of the fitness-log data-access core in `src/main.py`
(class `FitnessTracker` backed by one SQLite table `fitness_log`).

Modelling conventions, taken from the source:

* Dates are TEXT in `YYYY-MM-DD` form; SQLite compares TEXT lexicographically
  and `date('now', '-N days')` yields the date `N` calendar days before today.
  On well-formed `YYYY-MM-DD` strings lexicographic order coincides with
  calendar order, so dates are embedded as `Nat` day numbers (an order
  isomorphism); the cutoff `date('now', '-days days')` becomes `today - days`
  and the wall-clock date read inside each query becomes an explicit `today`
  parameter.
* The table is a `List FitnessRecord`.  `INSERT OR REPLACE` (`add_entry`,
  lines 39-43) deletes any row that would violate the UNIQUE constraint on
  `date` and inserts a brand-new row; since `created_at` is absent from the
  column list, the new row receives the column default `CURRENT_TIMESTAMP`,
  i.e. the wall-clock time of this call (`now` below).
* `cursor.execute` can raise `sqlite3.Error`; this is embedded as
  `Except StorageError`.  `add_entry` wraps the statement in
  `try/except sqlite3.Error` and returns a boolean (`rawInsert` below is the
  statement, `add_entry` the wrapper); `init_database` does not catch.
  Failure is abstracted by the `writable` flag of the store.
* SQL aggregates follow SQLite semantics: `COUNT(*)` counts rows;
  `SUM`/`AVG` ignore NULLs and return NULL when no non-NULL value exists.
  The Python wrapper applies `x or 0` to every aggregate (lines 103-109),
  embedded as `orZero…` (which maps both `none` and a zero value to `0`).
-/

namespace FitnessTracker

/-- One row of the `fitness_log` table (the surrogate `id` is never read by
the core and is omitted; row identity is the UNIQUE `date`). -/
structure FitnessRecord where
  date : Nat
  weight : ℚ
  ran : Bool
  distance : Option ℚ
  duration : Option ℤ
  notes : Option String
  created_at : Nat
  deriving DecidableEq

/-- A column of the declared schema, as written in the CREATE TABLE statement. -/
structure Column where
  name : String
  sqlType : String
  notNull : Bool
  unique : Bool
  deriving DecidableEq

/-- The schema of `fitness_log` declared in `init_database` (lines 16-27). -/
def fitnessLogColumns : List Column :=
  [⟨"id", "INTEGER PRIMARY KEY AUTOINCREMENT", false, true⟩,
   ⟨"date", "TEXT", true, true⟩,
   ⟨"weight", "REAL", true, false⟩,
   ⟨"ran", "BOOLEAN", true, false⟩,
   ⟨"distance", "REAL", false, false⟩,
   ⟨"duration", "INTEGER", false, false⟩,
   ⟨"notes", "TEXT", false, false⟩,
   ⟨"created_at", "TIMESTAMP", false, false⟩]

/-- The persistent store: the database file.  `schema` is `none` until the
table has been created; `writable` abstracts whether the underlying file can
be opened and written (the failure-injection axis of the spec). -/
structure Store where
  schema : Option (List Column)
  writable : Bool
  rows : List FitnessRecord
  deriving DecidableEq

/-- `sqlite3.Error` as surfaced by the storage layer. -/
inductive StorageError where
  | sqliteError
  deriving DecidableEq

/-- `init_database` (lines 11-30): `CREATE TABLE IF NOT EXISTS fitness_log …`.
If the table exists the statement is a no-op; otherwise it creates the table
with `fitnessLogColumns`.  Nothing is caught, so a storage failure
propagates. -/
def init_database (s : Store) : Except StorageError Store :=
  if s.writable then
    match s.schema with
    | some _ => Except.ok s
    | none => Except.ok { s with schema := some fitnessLogColumns }
  else Except.error StorageError.sqliteError

/-- The raw `INSERT OR REPLACE INTO fitness_log (date, weight, ran, distance,
duration, notes) VALUES (?, ?, ?, ?, ?, ?)` statement of `add_entry`
(lines 39-43).  SQLite REPLACE deletes every row conflicting on the UNIQUE
`date` and inserts a fresh row; `created_at` is not in the column list, so
the new row gets the default `CURRENT_TIMESTAMP`, embedded as `now`. -/
def rawInsert (s : Store) (now date : Nat) (weight : ℚ) (ran : Bool)
    (distance : Option ℚ) (duration : Option ℤ) (notes : Option String) :
    Except StorageError Store :=
  let newRow : FitnessRecord :=
    { date := date, weight := weight, ran := ran, distance := distance,
      duration := duration, notes := notes, created_at := now }
  if s.writable then
    Except.ok { s with rows := s.rows.filter (fun r => r.date != date) ++ [newRow] }
  else Except.error StorageError.sqliteError

/-- `add_entry` (lines 32-50): runs `rawInsert` inside
`try … except sqlite3.Error`, returning `True` on success and `False` (after
printing the message) on failure; the caught failure leaves the store
unchanged.  The pair is (returned boolean, store after the call). -/
def add_entry (s : Store) (now date : Nat) (weight : ℚ) (ran : Bool)
    (distance : Option ℚ) (duration : Option ℤ) (notes : Option String) :
    Bool × Store :=
  match rawInsert s now date weight ran distance duration notes with
  | Except.ok s' => (true, s')
  | Except.error _ => (false, s)

/-- `ORDER BY date ASC` comparison. -/
def dateAsc (a b : FitnessRecord) : Prop := a.date ≤ b.date

/-- `ORDER BY date DESC` comparison. -/
def dateDesc (a b : FitnessRecord) : Prop := b.date ≤ a.date

instance : DecidableRel dateAsc :=
  fun a b => inferInstanceAs (Decidable (a.date ≤ b.date))

instance : DecidableRel dateDesc :=
  fun a b => inferInstanceAs (Decidable (b.date ≤ a.date))

instance : IsTotal FitnessRecord dateAsc :=
  ⟨fun a b => Nat.le_total a.date b.date⟩

instance : IsTrans FitnessRecord dateAsc :=
  ⟨fun _ _ _ hab hbc => Nat.le_trans hab hbc⟩

instance : IsTotal FitnessRecord dateDesc :=
  ⟨fun a b => Nat.le_total b.date a.date⟩

instance : IsTrans FitnessRecord dateDesc :=
  ⟨fun _ _ _ hab hbc => Nat.le_trans hbc hab⟩

/-- `get_recent_entries` (lines 52-66): `SELECT date, weight, ran, distance,
duration, notes FROM fitness_log ORDER BY date DESC LIMIT ?`. -/
def get_recent_entries (s : Store) (limit : Nat) :
    List (Nat × ℚ × Bool × Option ℚ × Option ℤ × Option String) :=
  ((List.insertionSort dateDesc s.rows).take limit).map
    (fun r => (r.date, r.weight, r.ran, r.distance, r.duration, r.notes))

/-- The `WHERE date >= date('now', '-days days')` filter shared by
`get_weight_progress` (line 76) and `get_running_stats` (line 97).  Note it
has a lower bound only: no upper bound is imposed on `date`. -/
def windowRows (s : Store) (today days : Nat) : List FitnessRecord :=
  s.rows.filter (fun r => today - days ≤ r.date)

/-- `get_weight_progress` (lines 68-82): `SELECT date, weight … WHERE date >=
date('now', '-days days') ORDER BY date ASC`. -/
def get_weight_progress (s : Store) (today days : Nat) : List (Nat × ℚ) :=
  (List.insertionSort dateAsc (windowRows s today days)).map
    (fun r => (r.date, r.weight))

/-- SQL `SUM` over an integer column: NULL when no non-NULL value exists,
otherwise the sum of the non-NULL values. -/
def sqlSumInt (col : List (Option ℤ)) : Option ℤ :=
  if (col.filterMap id).isEmpty then none else some (col.filterMap id).sum

/-- SQL `SUM` over a real column. -/
def sqlSumRat (col : List (Option ℚ)) : Option ℚ :=
  if (col.filterMap id).isEmpty then none else some (col.filterMap id).sum

/-- SQL `AVG` over a real column: NULL when no non-NULL value exists,
otherwise the mean of the non-NULL values. -/
def sqlAvgRat (col : List (Option ℚ)) : Option ℚ :=
  if (col.filterMap id).isEmpty then none
  else some ((col.filterMap id).sum / ((col.filterMap id).length : ℚ))

/-- Python `x or 0` applied to a nullable integer aggregate (lines 104-105):
`None` and `0` are falsy and give `0`, anything else is returned as is. -/
def orZeroInt (o : Option ℤ) : ℤ :=
  match o with
  | none => 0
  | some v => if v = 0 then 0 else v

/-- Python `x or 0` applied to a nullable real aggregate (lines 106-108). -/
def orZeroRat (o : Option ℚ) : ℚ :=
  match o with
  | none => 0
  | some v => if v = 0 then 0 else v

/-- The nullable `duration` column read as a real number, as SQL `AVG` does
with an integer column. -/
def durationQ (r : FitnessRecord) : Option ℚ :=
  match r.duration with
  | none => none
  | some z => some ((z : ℚ))

/-- The dictionary returned by `get_running_stats` (lines 103-109). -/
structure RunningStats where
  total_days : Nat
  run_days : ℤ
  avg_distance : ℚ
  total_distance : ℚ
  avg_duration : ℚ
  deriving DecidableEq

/-- `get_running_stats` (lines 84-109): one aggregate query over the window
rows.  `COUNT(*)` is the row count (never NULL, so `or 0` is the identity on
it); the other four aggregates follow `sqlSum…`/`sqlAvg…` NULL semantics on
their `CASE WHEN ran = 1 THEN … END` columns (a CASE with no ELSE yields
NULL on non-running rows) and are then passed through Python `or 0`. -/
def get_running_stats (s : Store) (today days : Nat) : RunningStats :=
  let rows := windowRows s today days
  { total_days := rows.length
    run_days := orZeroInt (sqlSumInt
      (rows.map (fun r => some (if r.ran then (1 : ℤ) else 0))))
    avg_distance := orZeroRat (sqlAvgRat
      (rows.map (fun r => if r.ran then r.distance else none)))
    total_distance := orZeroRat (sqlSumRat
      (rows.map (fun r => if r.ran then r.distance else none)))
    avg_duration := orZeroRat (sqlAvgRat
      (rows.map (fun r => if r.ran then durationQ r else none))) }

/-- An empty writable store with the table created, as after start-up. -/
def emptyStore : Store :=
  { schema := some fitnessLogColumns, writable := true, rows := [] }

/-- A writable store holding one record dated 3, used as a concrete frame
test: adding date 7 must leave the date-3 record untouched. -/
def frameStore : Store :=
  { schema := some fitnessLogColumns, writable := true,
    rows := [{ date := 3, weight := 200, ran := false, distance := none,
               duration := none, notes := some "rest", created_at := 0 }] }

/-- The store after a first insertion for date 7 at timestamp 5. -/
def storeC3 : Store := (add_entry emptyStore 5 7 180 false none none none).2

/-- The record produced by overwriting date 7 at timestamp 9. -/
def recC3 : FitnessRecord :=
  { date := 7, weight := 181, ran := false, distance := none,
    duration := none, notes := none, created_at := 9 }

/-- A boundary record: date 70 is exactly `today - days` for today = 100,
days = 30. -/
def recC2 : FitnessRecord :=
  { date := 70, weight := 180, ran := false, distance := none,
    duration := none, notes := none, created_at := 0 }

/-- A writable store holding only the boundary record `recC2`. -/
def wStoreC2 : Store :=
  { schema := some fitnessLogColumns, writable := true, rows := [recC2] }

/-- A store holding one record dated 101, i.e. strictly after today = 100. -/
def cexStoreC2 : Store :=
  { schema := some fitnessLogColumns, writable := true,
    rows := [{ date := 101, weight := 180, ran := false, distance := none,
               duration := none, notes := none, created_at := 0 }] }

/-- The store after inserting dates 20240101, 20240103, 20240102 in that
order (day-number codes of 2024-01-01, 2024-01-03, 2024-01-02; any
order-preserving encoding of `YYYY-MM-DD` text gives the same ordering). -/
def exampleStore : Store :=
  (add_entry (add_entry (add_entry emptyStore 0 20240101 180 false none none
      none).2 0 20240103 179 false none none none).2 0 20240102 178 false none
    none none).2

/-- A store whose only record (date 95, inside the window for today = 100)
has `ran = false`: a window with zero running days. -/
def wStoreC5 : Store :=
  { schema := some fitnessLogColumns, writable := true,
    rows := [{ date := 95, weight := 180, ran := false, distance := none,
               duration := none, notes := none, created_at := 0 }] }

/-- A store whose only record is a running day dated 101, strictly after
today = 100. -/
def cexStoreC7 : Store :=
  { schema := some fitnessLogColumns, writable := true,
    rows := [{ date := 101, weight := 180, ran := true, distance := some 5,
               duration := some 40, notes := none, created_at := 0 }] }

/-- A writable store on a fresh file: no table yet. -/
def freshStore : Store := { schema := none, writable := true, rows := [] }

/-- A store with one running record carrying a distance, inside the window
for today = 100. -/
def wStoreC10 : Store :=
  { schema := some fitnessLogColumns, writable := true,
    rows := [{ date := 95, weight := 180, ran := true, distance := some 3,
               duration := some 30, notes := none, created_at := 0 }] }

/-! ## Helper lemmas -/

theorem add_entry_rows_of_writable (s : Store) (h : s.writable = true)
    (now d : Nat) (w : ℚ) (rn : Bool) (di : Option ℚ) (du : Option ℤ)
    (no : Option String) :
    (add_entry s now d w rn di du no).2.rows
      = s.rows.filter (fun r => r.date != d) ++
        [{ date := d, weight := w, ran := rn, distance := di, duration := du,
           notes := no, created_at := now }] := by
  simp [add_entry, rawInsert, h]

theorem add_entry_writable (s : Store) (now d : Nat) (w : ℚ) (rn : Bool)
    (di : Option ℚ) (du : Option ℤ) (no : Option String) :
    (add_entry s now d w rn di du no).2.writable = s.writable := by
  cases h : s.writable <;> simp [add_entry, rawInsert, h]

theorem filter_eq_date_of_filter_ne (d : Nat) (l : List FitnessRecord) :
    (l.filter (fun r => r.date != d)).filter (fun r => r.date == d) = [] := by
  induction l with
  | nil => rfl
  | cons a t ih =>
    by_cases hd : a.date = d
    · simp [List.filter_cons, hd, ih]
    · simp [List.filter_cons, hd, ih]

theorem col_map_some {α : Type} (g : FitnessRecord → α)
    (rows : List FitnessRecord) :
    (rows.map (fun r => some (g r))).filterMap id = rows.map g := by
  induction rows with
  | nil => rfl
  | cons a t ih => simp [ih]

theorem caseRan_col_eq {α : Type} (f : FitnessRecord → Option α)
    (rows : List FitnessRecord) :
    ((rows.map (fun r => if r.ran then f r else none)).filterMap id)
      = (rows.filter (fun r => r.ran)).filterMap f := by
  induction rows with
  | nil => rfl
  | cons a t ih =>
    cases hb : a.ran
    · simp [List.filter_cons, hb, ih]
    · cases hfa : f a <;>
        simp [List.filter_cons, List.filterMap_cons, hb, hfa, ih]

theorem run_count_col (rows : List FitnessRecord) :
    (rows.map (fun r => if r.ran then (1 : ℤ) else 0)).sum
      = (((rows.filter (fun r => r.ran)).length : ℤ)) := by
  induction rows with
  | nil => rfl
  | cons a t ih =>
    cases hb : a.ran
    · simp [List.filter_cons, hb, ih]
    · simp [List.filter_cons, hb, ih]
      omega

theorem orZeroInt_some (v : ℤ) : orZeroInt (some v) = v := by
  by_cases h : v = 0 <;> simp [orZeroInt, h]

theorem orZeroRat_some (v : ℚ) : orZeroRat (some v) = v := by
  by_cases h : v = 0 <;> simp [orZeroRat, h]

theorem run_days_eq (s : Store) (today days : Nat) :
    (get_running_stats s today days).run_days
      = (((windowRows s today days).filter (fun r => r.ran)).length : ℤ) := by
  simp only [get_running_stats, sqlSumInt, col_map_some, run_count_col]
  cases hrows : windowRows s today days with
  | nil => simp [orZeroInt]
  | cons a t => simp [orZeroInt_some]

theorem length_filterMap_of_isSome {α β : Type} (f : α → Option β)
    (l : List α) (h : ∀ a ∈ l, (f a).isSome = true) :
    (l.filterMap f).length = l.length := by
  induction l with
  | nil => rfl
  | cons a t ih =>
    have ha := h a (by simp)
    cases hfa : f a
    · rw [hfa] at ha
      simp at ha
    · simp [List.filterMap_cons, hfa, ih (fun x hx => h x (by simp [hx]))]

/-! ## Claims -/

/-- Claim C1: for every date `d` and field tuples, calling `add_entry` with
`d` twice leaves the store with exactly one record whose date is `d`, and its
weight, ran, distance, duration and notes are those of the second call
(its `created_at` is the second call's timestamp). -/
theorem add_entry_upsert (s : Store) (h : s.writable = true) (t1 t2 d : Nat)
    (w1 w2 : ℚ) (r1 r2 : Bool) (di1 di2 : Option ℚ) (du1 du2 : Option ℤ)
    (n1 n2 : Option String) :
    ((add_entry (add_entry s t1 d w1 r1 di1 du1 n1).2 t2 d w2 r2 di2 du2
        n2).2.rows.filter (fun r => r.date == d))
      = [{ date := d, weight := w2, ran := r2, distance := di2, duration := du2,
           notes := n2, created_at := t2 }] := by
  have h1 : (add_entry s t1 d w1 r1 di1 du1 n1).2.writable = true := by
    rw [add_entry_writable]; exact h
  rw [add_entry_rows_of_writable _ h1]
  simp [List.filter_append, filter_eq_date_of_filter_ne]

/-- Witness for C1 at a concrete store and concrete field tuples. -/
theorem add_entry_upsert_witness :
    ((add_entry (add_entry emptyStore 1 7 180 false none none none).2 2 7 179
        true (some 3) (some 30) none).2.rows.filter (fun r => r.date == 7))
      = [{ date := 7, weight := 179, ran := true, distance := some 3,
           duration := some 30, notes := none, created_at := 2 }] :=
  add_entry_upsert emptyStore rfl 1 2 7 180 179 false true none (some 3) none
    (some 30) none none

/-- Counterexample to claim C3 as stated: inserting date 7 at timestamp 5 and
overwriting it at timestamp 9 leaves a record whose `created_at` is 9, the
overwrite time, not the first-insertion time 5 — `INSERT OR REPLACE` deletes
the old row and the re-inserted row takes a fresh `CURRENT_TIMESTAMP`
default. -/
theorem add_entry_created_at_cex :
    ((add_entry storeC3 9 7 181 false none none none).2.rows.map
        (fun r => r.created_at)) = [9]
    ∧ (9 : Nat) ≠ 5 := by
  constructor
  · rfl
  · decide

/-- Claim C3 (amended): when `add_entry` is called with a date `d` that
already has a record, the `created_at` of the record for `d` after the call
is the timestamp of that call — overwriting refreshes `created_at`. -/
theorem add_entry_created_at_refreshed (s : Store) (now d : Nat) (w : ℚ)
    (rn : Bool) (di : Option ℚ) (du : Option ℤ) (no : Option String)
    (r : FitnessRecord) (h : s.writable = true)
    (hr : r ∈ (add_entry s now d w rn di du no).2.rows) (hd : r.date = d) :
    r.created_at = now := by
  rw [add_entry_rows_of_writable s h] at hr
  rcases List.mem_append.mp hr with hmem | hmem
  · have hp := List.of_mem_filter hmem
    simp [hd] at hp
  · simp at hmem
    subst hmem
    rfl

/-- Witness for the amended C3: the overwritten date-7 record carries the
overwrite timestamp 9. -/
theorem add_entry_created_at_refreshed_witness : recC3.created_at = 9 :=
  add_entry_created_at_refreshed storeC3 9 7 181 false none none none recC3
    rfl (by decide) rfl

/-- Claim C4: `add_entry` never raises (it is total, returning a boolean
where the raw statement returns `Except`): it returns `false` exactly when
the underlying statement fails with a storage error (leaving the store
unchanged in that case), and when it does not return `false` the record has
been stored as the unique record for its date. -/
theorem add_entry_error_policy (s : Store) (now d : Nat) (w : ℚ) (rn : Bool)
    (di : Option ℚ) (du : Option ℤ) (no : Option String) :
    ((add_entry s now d w rn di du no).1 = false
        ↔ rawInsert s now d w rn di du no
            = Except.error StorageError.sqliteError)
    ∧ ((add_entry s now d w rn di du no).2.rows.filter (fun r => r.date == d)
          = [{ date := d, weight := w, ran := rn, distance := di,
               duration := du, notes := no, created_at := now }]
        ∨ add_entry s now d w rn di du no = (false, s)) := by
  cases hw : s.writable
  · refine ⟨?_, Or.inr ?_⟩ <;> simp [add_entry, rawInsert, hw]
  · constructor
    · simp [add_entry, rawInsert, hw]
    · left
      rw [add_entry_rows_of_writable s hw]
      simp [List.filter_append, filter_eq_date_of_filter_ne]

/-- Claim C9: a successful `add_entry` for date `d` leaves every record whose
date differs from `d` completely unchanged (all fields, `created_at`
included, in the original order). -/
theorem add_entry_frame (s : Store) (now d : Nat) (w : ℚ) (rn : Bool)
    (di : Option ℚ) (du : Option ℤ) (no : Option String)
    (h : (add_entry s now d w rn di du no).1 = true) :
    (add_entry s now d w rn di du no).2.rows.filter (fun r => r.date != d)
      = s.rows.filter (fun r => r.date != d) := by
  have hw : s.writable = true := by
    cases hw : s.writable
    · simp [add_entry, rawInsert, hw] at h
    · rfl
  rw [add_entry_rows_of_writable s hw]
  simp [List.filter_append, List.filter_filter]

/-- Witness for C9: adding date 7 to a store holding a record dated 3
succeeds and leaves the date-3 record as it was. -/
theorem add_entry_frame_witness :
    (add_entry frameStore 9 7 180 true (some 2) (some 20) none).1 = true
    ∧ (add_entry frameStore 9 7 180 true (some 2) (some 20)
          none).2.rows.filter (fun r => r.date != 7)
        = frameStore.rows.filter (fun r => r.date != 7) :=
  ⟨rfl, add_entry_frame frameStore 9 7 180 true (some 2) (some 20) none rfl⟩

/-- Counterexample to claim C2 as stated: with today = 100 and days = 30, a
record dated 101 — strictly after today, hence outside the inclusive window
[70, 100] — is returned by `get_weight_progress`, because the SQL filter
`date >= date('now', '-30 days')` imposes no upper bound. -/
theorem get_weight_progress_future_date_cex :
    ((101 : Nat), (180 : ℚ)) ∈ get_weight_progress cexStoreC2 100 30
    ∧ ¬((101 : Nat) ≤ 100) := by
  constructor
  · decide
  · decide

/-- Claim C2 (amended): a stored record `r` appears in
`get_weight_progress s today days` if and only if `today - days ≤ r.date`:
the boundary date `today - days` is included, dates strictly before it are
excluded, but dates after today are included as well; the result is ordered
by date ascending, and is a permutation of the projection of exactly the
rows passing the lower-bound filter. -/
theorem get_weight_progress_window (s : Store) (today days : Nat)
    (r : FitnessRecord) (hr : r ∈ s.rows) :
    ((r.date, r.weight) ∈ get_weight_progress s today days
        ↔ today - days ≤ r.date)
    ∧ List.Sorted (fun p q : Nat × ℚ => p.1 ≤ q.1)
        (get_weight_progress s today days)
    ∧ (get_weight_progress s today days).Perm
        ((s.rows.filter (fun x => today - days ≤ x.date)).map
          (fun x => (x.date, x.weight))) := by
  refine ⟨⟨?_, ?_⟩, ?_, ?_⟩
  · intro hmem
    unfold get_weight_progress at hmem
    rcases List.mem_map.mp hmem with ⟨r', hr', heq⟩
    have hw : r' ∈ windowRows s today days :=
      (List.mem_insertionSort dateAsc).mp hr'
    have hp := List.of_mem_filter hw
    simp only [decide_eq_true_eq] at hp
    have hdate : r'.date = r.date := by
      simpa using congrArg Prod.fst heq
    rw [hdate] at hp
    exact hp
  · intro hb
    have hw : r ∈ windowRows s today days :=
      List.mem_filter.mpr ⟨hr, by simpa using hb⟩
    have hs : r ∈ List.insertionSort dateAsc (windowRows s today days) :=
      (List.mem_insertionSort dateAsc).mpr hw
    exact List.mem_map.mpr ⟨r, hs, rfl⟩
  · have hs : List.Sorted dateAsc
        (List.insertionSort dateAsc (windowRows s today days)) :=
      List.sorted_insertionSort dateAsc (windowRows s today days)
    exact hs.map _ (fun a b hab => hab)
  · exact (List.perm_insertionSort dateAsc (windowRows s today days)).map _

/-- Witness for the amended C2 at a concrete store whose single record sits
exactly on the window boundary. -/
theorem get_weight_progress_window_witness :
    ((recC2.date, recC2.weight) ∈ get_weight_progress wStoreC2 100 30
        ↔ 100 - 30 ≤ recC2.date)
    ∧ List.Sorted (fun p q : Nat × ℚ => p.1 ≤ q.1)
        (get_weight_progress wStoreC2 100 30)
    ∧ (get_weight_progress wStoreC2 100 30).Perm
        ((wStoreC2.rows.filter (fun x => 100 - 30 ≤ x.date)).map
          (fun x => (x.date, x.weight))) :=
  get_weight_progress_window wStoreC2 100 30 recC2 (by simp [wStoreC2])

/-- Claim C6: `get_recent_entries` returns at most `limit` records, sorted by
date descending; it returns the empty sequence on a store with no records;
and on the store built by inserting dates 20240101, 20240103, 20240102 in
that order it returns the dates in the order 20240103, 20240102, 20240101. -/
theorem get_recent_entries_spec (s : Store) (n : Nat) :
    (get_recent_entries s n).length ≤ n
    ∧ List.Sorted
        (fun p q : Nat × ℚ × Bool × Option ℚ × Option ℤ × Option String =>
          q.1 ≤ p.1)
        (get_recent_entries s n)
    ∧ get_recent_entries ⟨s.schema, s.writable, []⟩ n = []
    ∧ (get_recent_entries exampleStore 10).map (fun e => e.1)
        = [20240103, 20240102, 20240101] := by
  refine ⟨?_, ?_, ?_, ?_⟩
  · simp only [get_recent_entries, List.length_map, List.length_take]
    exact Nat.min_le_left _ _
  · have hs : List.Sorted dateDesc (List.insertionSort dateDesc s.rows) :=
      List.sorted_insertionSort dateDesc s.rows
    have ht : List.Sorted dateDesc
        ((List.insertionSort dateDesc s.rows).take n) :=
      List.Pairwise.sublist (List.take_sublist n _) hs
    exact ht.map _ (fun a b hab => hab)
  · simp [get_recent_entries]
  · decide

/-- Claim C5: when the window contains zero records with `ran = true`,
`get_running_stats` returns numeric zeros for `run_days`, `avg_distance`,
`total_distance` and `avg_duration` (the NULL aggregates are normalized by
`or 0`). -/
theorem get_running_stats_zero_normalization (s : Store) (today days : Nat)
    (h : (windowRows s today days).filter (fun r => r.ran) = []) :
    (get_running_stats s today days).run_days = 0
    ∧ (get_running_stats s today days).avg_distance = 0
    ∧ (get_running_stats s today days).total_distance = 0
    ∧ (get_running_stats s today days).avg_duration = 0 := by
  have hdist : ((windowRows s today days).map
      (fun r => if r.ran then r.distance else none)).filterMap id = [] := by
    rw [caseRan_col_eq, h]
    rfl
  have hdur : ((windowRows s today days).map
      (fun r => if r.ran then durationQ r else none)).filterMap id = [] := by
    rw [caseRan_col_eq, h]
    rfl
  refine ⟨?_, ?_, ?_, ?_⟩
  · rw [run_days_eq, h]
    rfl
  · simp [get_running_stats, sqlAvgRat, hdist, orZeroRat]
  · simp [get_running_stats, sqlSumRat, hdist, orZeroRat]
  · simp [get_running_stats, sqlAvgRat, hdur, orZeroRat]

/-- Witness for C5: a window holding a single non-running record. -/
theorem get_running_stats_zero_normalization_witness :
    (get_running_stats wStoreC5 100 30).run_days = 0
    ∧ (get_running_stats wStoreC5 100 30).avg_distance = 0
    ∧ (get_running_stats wStoreC5 100 30).total_distance = 0
    ∧ (get_running_stats wStoreC5 100 30).avg_duration = 0 :=
  get_running_stats_zero_normalization wStoreC5 100 30 (by decide)

/-- Counterexample to claim C7 as stated: with today = 100 and days = 30, a
store whose only record is dated 101 has zero records in the trailing window
[70, 100], yet `get_running_stats` reports `total_days = 1` — the SQL filter
has no upper bound, so the future-dated record is counted. -/
theorem get_running_stats_window_cex :
    (get_running_stats cexStoreC7 100 30).total_days = 1
    ∧ (cexStoreC7.rows.filter
        (fun r => 100 - 30 ≤ r.date && r.date ≤ 100)).length = 0 := by
  refine ⟨rfl, ?_⟩
  decide

/-- Claim C7 (amended): `total_days` is the number of records passing the
code's window filter `today - days ≤ date` (which has no upper bound) and
`run_days` is the number of those records with `ran = true`; consequently
`run_days ≤ total_days`. -/
theorem get_running_stats_counts (s : Store) (today days : Nat) :
    (get_running_stats s today days).total_days
        = (windowRows s today days).length
    ∧ (get_running_stats s today days).run_days
        = (((windowRows s today days).filter (fun r => r.ran)).length : ℤ)
    ∧ (get_running_stats s today days).run_days
        ≤ ((get_running_stats s today days).total_days : ℤ) := by
  refine ⟨rfl, run_days_eq s today days, ?_⟩
  rw [run_days_eq]
  have ht : (get_running_stats s today days).total_days
      = (windowRows s today days).length := rfl
  rw [ht]
  exact_mod_cast List.length_filter_le _ _

/-- Claim C8: on a writable store, `init_database` succeeds; calling it again
on the result succeeds and changes nothing (same schema, and the stored
records are untouched), and after the first call the table exists. -/
theorem init_database_idempotent (s : Store) (h : s.writable = true) :
    ∃ s1, init_database s = Except.ok s1
      ∧ init_database s1 = Except.ok s1
      ∧ s1.rows = s.rows
      ∧ s1.schema.isSome = true := by
  cases hsc : s.schema with
  | none =>
    refine ⟨{ s with schema := some fitnessLogColumns }, ?_, ?_, rfl, rfl⟩
    · simp [init_database, h, hsc]
    · simp [init_database, h]
  | some c =>
    refine ⟨s, ?_, ?_, rfl, ?_⟩
    · simp [init_database, h, hsc]
    · simp [init_database, h, hsc]
    · simp [hsc]

/-- Witness for C8 on a fresh writable store. -/
theorem init_database_idempotent_witness :
    ∃ s1, init_database freshStore = Except.ok s1
      ∧ init_database s1 = Except.ok s1
      ∧ s1.rows = freshStore.rows
      ∧ s1.schema.isSome = true :=
  init_database_idempotent freshStore rfl

/-- Claim C10: when the window has at least one running record and every
running record in it carries a distance, the reported `total_distance`
equals the reported `avg_distance` times the reported `run_days`. -/
theorem get_running_stats_avg_mul (s : Store) (today days : Nat)
    (h1 : (windowRows s today days).filter (fun r => r.ran) ≠ [])
    (h2 : ∀ r ∈ (windowRows s today days).filter (fun r => r.ran),
        r.distance.isSome = true) :
    (get_running_stats s today days).total_distance
      = (get_running_stats s today days).avg_distance
          * ((get_running_stats s today days).run_days : ℚ) := by
  have hcol : ((windowRows s today days).map
      (fun r => if r.ran then r.distance else none)).filterMap id
      = ((windowRows s today days).filter (fun r => r.ran)).filterMap
          (fun r => r.distance) :=
    caseRan_col_eq _ _
  have hlen : (((windowRows s today days).filter
        (fun r => r.ran)).filterMap (fun r => r.distance)).length
      = ((windowRows s today days).filter (fun r => r.ran)).length :=
    length_filterMap_of_isSome _ _ h2
  have hRlen : ((windowRows s today days).filter (fun r => r.ran)).length ≠ 0 :=
    fun h0 => h1 (List.length_eq_zero.mp h0)
  have hdslen : (((windowRows s today days).filter
        (fun r => r.ran)).filterMap (fun r => r.distance)).length ≠ 0 := by
    rw [hlen]
    exact hRlen
  have hne : ((((windowRows s today days).filter
        (fun r => r.ran)).filterMap (fun r => r.distance)).isEmpty) = false := by
    cases hd : (((windowRows s today days).filter
        (fun r => r.ran)).filterMap (fun r => r.distance)) with
    | nil => exact absurd (by rw [hd]; rfl) hdslen
    | cons a t => rfl
  have htotal : (get_running_stats s today days).total_distance
      = (((windowRows s today days).filter
          (fun r => r.ran)).filterMap (fun r => r.distance)).sum := by
    simp only [get_running_stats, sqlSumRat, hcol, hne, Bool.false_eq_true,
      if_false]
    exact orZeroRat_some _
  have havg : (get_running_stats s today days).avg_distance
      = (((windowRows s today days).filter
            (fun r => r.ran)).filterMap (fun r => r.distance)).sum
          / ((((windowRows s today days).filter
            (fun r => r.ran)).filterMap (fun r => r.distance)).length : ℚ) := by
    simp only [get_running_stats, sqlAvgRat, hcol, hne, Bool.false_eq_true,
      if_false]
    exact orZeroRat_some _
  rw [htotal, havg, run_days_eq, ← hlen]
  have hq : ((((windowRows s today days).filter
        (fun r => r.ran)).filterMap (fun r => r.distance)).length : ℚ) ≠ 0 := by
    exact_mod_cast hdslen
  push_cast
  rw [div_mul_cancel₀ _ hq]

/-- Witness for C10: one running record with distance 3 in the window gives
`total_distance = 3 = 3 * 1 = avg_distance * run_days`. -/
theorem get_running_stats_avg_mul_witness :
    (get_running_stats wStoreC10 100 30).total_distance
      = (get_running_stats wStoreC10 100 30).avg_distance
          * ((get_running_stats wStoreC10 100 30).run_days : ℚ) :=
  get_running_stats_avg_mul wStoreC10 100 30 (by decide) (by decide)

end FitnessTracker
